import Mathlib

/-!
Verification development for `GWForge/population/mass.py`.

The module is embedded shallowly over `ℚ`: Python floats become exact
rationals, the floating-point power operator `**` and the external
libraries (gwpopulation density evaluators, bilby priors and their
inverse-CDF samplers, and the repository's `conversion` utility) are
explicit function parameters collected in the `Ext` structure, and the
global numpy random stream is an explicit `ℕ → ℚ` stream of uniform
draws consumed left to right.  Everything dispatch-related (string
normalisation results, substring matching, the two-tier try/except
structure, the per-branch density constructions) is translated directly
from the source.
-/

set_option maxRecDepth 100000

namespace GWForge

/-- Python string membership `a in b`: `a` occurs as a contiguous substring
of `b` (the empty string is a substring of everything).  `isPref a b` is the
auxiliary "`a` is an initial segment of `b`" test. -/
def isPref : List Char → List Char → Bool
  | [], _ => true
  | _ :: _, [] => false
  | x :: xs, y :: ys => if x = y then isPref xs ys else false

/-- Python `a in b` on lists of characters: some suffix of `b` starts with `a`. -/
def listIn (a : List Char) : List Char → Bool
  | [] => isPref a []
  | y :: ys => isPref a (y :: ys) || listIn a ys

/-- Python substring containment `a in b` for strings. -/
def strIn (a b : String) : Bool := listIn a.toList b.toList

/-- Python dict value access `parameters[key]`.  Key presence is assumed by
every claim under verification (the spec leaves missing-key behaviour open);
an absent key defaults to `0` here, and theorems that depend on parameter
values carry explicit `lookup = some v` hypotheses instead of relying on the
default. -/
def get (ps : List (String × ℚ)) (k : String) : ℚ := (ps.lookup k).getD 0

/-- The module-level `choices` list of `mass.py` (lines 17-18).  Note that it
does not contain a `Fixed` entry even though the `fixed` branch is
implemented. -/
def choices : List String :=
  ["PowerLaw+Peak", "MultiPeak", "BrokenPowerLaw", "UniformSecondary",
   "DoubleGaussian", "LogNormal", "PowerLawDipBreak", "PowerLaw"]

/-- Python `repr` of the `choices` list, as `str.format` renders it inside the
`ValueError` message: each element wrapped in single quotes (written `\x27`),
separated by a comma and a space, inside square brackets. -/
def choicesRepr : String :=
  "[" ++ String.intercalate ", " (choices.map (fun c => "\x27" ++ c ++ "\x27")) ++ "]"

/-- The `ValueError` message of line 170:
`'{} is not implemented in gwpopulation. Please choose from {}'.format(self.mass_model, choices)`. -/
def unrecognizedMsg (name : String) : String :=
  name ++ (" is not implemented in gwpopulation. Please choose from " ++ choicesRepr)

/-- The external dependencies of `mass.py`, kept abstract: the numpy
floating-point power `a ** b` (`pw`), the bilby `TruncatedGaussian(mu, sigma,
minimum, maximum).prob x` density (`tgProb`), the bilby `Interped(xx, yy)`
inverse-CDF sampler evaluated at a uniform draw (`interpICDF`), the bilby
`Uniform(minimum, maximum)`, `LogNormal(mu, sigma)` and
`PowerLaw(alpha, minimum, maximum)` samplers at a uniform draw, the
gwpopulation model grids `m1s`/`qs` and densities `p_m1`/`p_q` indexed by the
model class tag ("single", "multi", "broken"), and the repository's
`conversion.generate_mass_parameters` derived fields (`derived`). -/
structure Ext where
  pw : ℚ → ℚ → ℚ
  tgProb : ℚ → ℚ → ℚ → ℚ → ℚ → ℚ
  interpICDF : List ℚ → List ℚ → ℚ → ℚ
  uniformICDF : ℚ → ℚ → ℚ → ℚ
  logNormalICDF : ℚ → ℚ → ℚ → ℚ
  powerLawICDF : ℚ → ℚ → ℚ → ℚ → ℚ
  m1s : String → List ℚ
  qs : String → List ℚ
  p_m1 : String → List ℚ → List (String × ℚ) → List ℚ
  p_q : String → List ℚ → List ℚ → List (String × ℚ) → List ℚ
  derived : List (String × List ℚ) → List (String × List ℚ)

/-- The `Mass` class state: `mass_model` holds the constructor argument after
`utils.remove_special_characters(mass_model.lower())` (the normaliser lives in
`GWForge/utils.py`, outside the sources under verification; all claims are
stated over the normalised form, so it is taken as given), together with the
sample count and the parameter dict. -/
structure Mass where
  mass_model : String
  number_of_samples : ℕ
  parameters : List (String × ℚ)

/-- Result of `Mass.sample()`: either the samples dict or the `ValueError`
of line 170. -/
inductive Outcome where
  | ok (samples : List (String × List ℚ))
  | unrecognized (msg : String)
deriving DecidableEq

/-- `prior.sample(n)` for a prior whose single-draw inverse-CDF map is `draw`:
`n` successive uniform draws from the global stream `rng`, starting at stream
position `off`. -/
def sampleN (draw : ℚ → ℚ) (rng : ℕ → ℚ) (off n : ℕ) : List ℚ :=
  (List.range n).map (fun i => draw (rng (off + i)))

/-- `numpy.linspace(a, b, num)`: `num` evenly spaced points from `a` to `b`
inclusive. -/
def linspace (a b : ℚ) (num : ℕ) : List ℚ :=
  (List.range num).map (fun (i : ℕ) => a + (b - a) * (i : ℚ) / ((num - 1 : ℕ) : ℚ))

/-- `notch_filter(val, parameters)` of lines 10-12. -/
def notch_filter (E : Ext) (val : ℚ) (parameters : List (String × ℚ)) : ℚ :=
  1 - get parameters "A" /
    ((1 + E.pw (get parameters "gamma_low" / val) (get parameters "eta_low")) *
     (1 + E.pw (val / get parameters "gamma_high") (get parameters "eta_high")))

/-- `low_pass_filter(val, parameters)` of lines 14-15. -/
def low_pass_filter (E : Ext) (val : ℚ) (parameters : List (String × ℚ)) : ℚ :=
  1 / (1 + E.pw (val / get parameters "mmax") (get parameters "n"))

/-- Models the external `bilby.core.prior.analytical.PowerLaw(alpha, minimum,
maximum).prob` density for `alpha ≠ -1`: proportional to `x ** alpha` inside
`[minimum, maximum]` and zero outside (bilby multiplies by the
`is_in_prior_range` indicator). -/
def powerLawProb (E : Ext) (alpha lo hi x : ℚ) : ℚ :=
  if lo ≤ x ∧ x ≤ hi then
    E.pw x alpha * (1 + alpha) / (E.pw hi (1 + alpha) - E.pw lo (1 + alpha))
  else 0

/-- Line 63: `{param: self.parameters[param] for param in self.parameters if
param not in ('beta')}`.  `('beta')` is the *string* `'beta'`, not a
one-element tuple, so the guard is Python substring containment: every key
that occurs contiguously inside `'beta'` is dropped, not just the key
`'beta'` itself. -/
def mass_parameters (ps : List (String × ℚ)) : List (String × ℚ) :=
  ps.filter (fun kv => !(strIn kv.1 "beta"))

/-- Line 64: `{param: self.parameters[param] for param in self.parameters if
param in ('beta', 'mmin', 'delta_m')}` — here the right-hand side is a genuine
tuple, so this is exact key membership. -/
def mass_ratio_parameters (ps : List (String × ℚ)) : List (String × ℚ) :=
  ps.filter (fun kv => kv.1 == "beta" || kv.1 == "mmin" || kv.1 == "delta_m")

/-- Lines 50-58: which gwpopulation model class the tier-1 `if/elif` chain
selects, if any ("single" for `SinglePeakSmoothedMassDistribution`, "multi"
for `MultiPeakSmoothedMassDistribution`, "broken" for
`BrokenPowerLawSmoothedMassDistribution`).  When no branch matches, the local
`model` is never bound and line 60 raises `NameError`, caught by the bare
`except`. -/
def tier1Tag (name : String) : Option String :=
  if strIn "powerlawpeak" name then some "single"
  else if strIn "multipeak" name then some "multi"
  else if strIn "brokenpowerlaw" name then some "broken"
  else none

/-- Lines 60-80: the tier-1 (gwpopulation) sampling path.  `p_m1` receives the
`mass_parameters` dict and `p_q` the `mass_ratio_parameters` dict; both fields
are drawn through bilby `Interped` inverse-CDF samplers over the model's own
grids. -/
def tier1Sample (E : Ext) (tag : String) (ps : List (String × ℚ)) (n : ℕ)
    (rng : ℕ → ℚ) : List (String × List ℚ) :=
  let mass1 := E.m1s tag
  let qgrid := E.qs tag
  let prob_mass_1 := E.p_m1 tag mass1 (mass_parameters ps)
  let prob_mass_q := E.p_q tag qgrid mass1 (mass_ratio_parameters ps)
  [("mass_1_source", sampleN (E.interpICDF mass1 prob_mass_1) rng 0 n),
   ("mass_ratio", sampleN (E.interpICDF qgrid prob_mass_q) rng n n)]

/-- Lines 85-99: the `uniformsecondary` branch.  The exclusion tuple on line
88 is a real tuple, so the guard is exact key membership. -/
def uniformSecondarySamples (E : Ext) (ps : List (String × ℚ)) (n : ℕ)
    (rng : ℕ → ℚ) : List (String × List ℚ) :=
  let mp := ps.filter (fun kv =>
    !(kv.1 == "beta" || kv.1 == "minimum_secondary_mass" || kv.1 == "maximum_secondary_mass"))
  let mass1 := E.m1s "single"
  let prob_mass_1 := E.p_m1 "single" mass1 mp
  [("mass_1_source", sampleN (E.interpICDF mass1 prob_mass_1) rng 0 n),
   ("mass_2_source",
     sampleN (E.uniformICDF (get ps "minimum_secondary_mass") (get ps "maximum_secondary_mass")) rng n n)]

/-- Lines 101-121: the `doublegaussian` branch: a 5001-point grid, two
truncated Gaussians weighted by `breaking_fraction` and
`1 - breaking_fraction`, summed, fed to one `Interped` sampler, and both mass
fields drawn from it. -/
def doubleGaussianSamples (E : Ext) (ps : List (String × ℚ)) (n : ℕ)
    (rng : ℕ → ℚ) : List (String × List ℚ) :=
  let mass := linspace (get ps "mmin") (get ps "mmax") 5001
  let prob_1 := mass.map (fun x =>
    E.tgProb (get ps "mu_1") (get ps "sigma_1") (get ps "mmin") (get ps "mmax") x *
      get ps "breaking_fraction")
  let prob_2 := mass.map (fun x =>
    E.tgProb (get ps "mu_2") (get ps "sigma_2") (get ps "mmin") (get ps "mmax") x *
      (1 - get ps "breaking_fraction"))
  let prob := List.zipWith (fun a b => a + b) prob_1 prob_2
  [("mass_1_source", sampleN (E.interpICDF mass prob) rng 0 n),
   ("mass_2_source", sampleN (E.interpICDF mass prob) rng n n)]

/-- Lines 123-126: the `lognormal` / `loggaussian` branch. -/
def logNormalSamples (E : Ext) (ps : List (String × ℚ)) (n : ℕ)
    (rng : ℕ → ℚ) : List (String × List ℚ) :=
  [("mass_1_source", sampleN (E.logNormalICDF (get ps "mu") (get ps "sigma")) rng 0 n),
   ("mass_2_source", sampleN (E.logNormalICDF (get ps "mu") (get ps "sigma")) rng n n)]

/-- Lines 133-154: the combined dip density, pointwise.  The source
initialises `prob = numpy.zeros_like(mass)` and then overwrites the two
complementary masked segments `mass <= gamma_high` and `mass > gamma_high`;
since the masks partition the grid this equals the pointwise conditional
below.  Both power laws are constructed with `minimum=mmin` and
`maximum=gamma_high` (lines 134-138 and 145-149). -/
def dipProbFun (E : Ext) (ps : List (String × ℚ)) (x : ℚ) : ℚ :=
  if x ≤ get ps "gamma_high" then
    powerLawProb E (get ps "alpha_1") (get ps "mmin") (get ps "gamma_high") x *
      notch_filter E x ps * low_pass_filter E x ps
  else
    powerLawProb E (get ps "alpha_2") (get ps "mmin") (get ps "gamma_high") x *
      notch_filter E x ps * low_pass_filter E x ps

/-- Lines 128-158: the `dip` branch: 5001-point grid, combined filtered
density, one `Interped` sampler, both fields drawn from it. -/
def dipSamples (E : Ext) (ps : List (String × ℚ)) (n : ℕ)
    (rng : ℕ → ℚ) : List (String × List ℚ) :=
  let mass := linspace (get ps "mmin") (get ps "mmax") 5001
  let prob := mass.map (dipProbFun E ps)
  [("mass_1_source", sampleN (E.interpICDF mass prob) rng 0 n),
   ("mass_2_source", sampleN (E.interpICDF mass prob) rng n n)]

/-- Lines 159-165: the plain `powerlaw` branch. -/
def powerLawSamples (E : Ext) (ps : List (String × ℚ)) (n : ℕ)
    (rng : ℕ → ℚ) : List (String × List ℚ) :=
  [("mass_1_source",
     sampleN (E.powerLawICDF (get ps "alpha") (get ps "mmin") (get ps "mmax")) rng 0 n),
   ("mass_2_source",
     sampleN (E.powerLawICDF (get ps "alpha") (get ps "mmin") (get ps "mmax")) rng n n)]

/-- Lines 166-168: the `fixed` branch: `numpy.ones(n) * primary_mass`, and the
secondary mass obtained by scaling elementwise with `mass_ratio` when
`mass_ratio < 1`, else with its reciprocal. -/
def fixedSamples (ps : List (String × ℚ)) (n : ℕ) : List (String × List ℚ) :=
  let m1 := (List.replicate n (1 : ℚ)).map (fun x => x * get ps "primary_mass")
  let m2 := m1.map (fun x =>
    x * (if get ps "mass_ratio" < 1 then get ps "mass_ratio" else 1 / get ps "mass_ratio"))
  [("mass_1_source", m1), ("mass_2_source", m2)]

/-- Lines 85-170: the tier-2 (`except:` block) dispatch, matched in source
order against the normalised model name; the final `else` raises the
`ValueError` of line 170. -/
def tier2Sample (E : Ext) (m : Mass) (rng : ℕ → ℚ) : Outcome :=
  if strIn "uniformsecondary" m.mass_model then
    Outcome.ok (uniformSecondarySamples E m.parameters m.number_of_samples rng)
  else if strIn "doublegaussian" m.mass_model then
    Outcome.ok (doubleGaussianSamples E m.parameters m.number_of_samples rng)
  else if strIn "lognormal" m.mass_model || strIn "loggaussian" m.mass_model then
    Outcome.ok (logNormalSamples E m.parameters m.number_of_samples rng)
  else if strIn "dip" m.mass_model then
    Outcome.ok (dipSamples E m.parameters m.number_of_samples rng)
  else if strIn "powerlaw" m.mass_model then
    Outcome.ok (powerLawSamples E m.parameters m.number_of_samples rng)
  else if strIn "fixed" m.mass_model then
    Outcome.ok (fixedSamples m.parameters m.number_of_samples)
  else
    Outcome.unrecognized (unrecognizedMsg m.mass_model)

/-- Modelled from the spec: `conversion.generate_mass_parameters(samples,
source=True)` (file `GWForge/conversion.py`, which is not among the sources
under `src/`) "adds derived quantities (e.g., total mass, chirp mass, mass
ratio if absent) to the output mapping": the existing entries are preserved
and the derived fields are appended after them. -/
def generate_mass_parameters (E : Ext) (samples : List (String × List ℚ)) :
    List (String × List ℚ) :=
  samples ++ E.derived samples

/-- Post-processing and propagation of a tier-2 result through line 173:
successful dicts pass through `conversion.generate_mass_parameters`, the
`ValueError` propagates. -/
def tier2Outcome (E : Ext) (m : Mass) (rng : ℕ → ℚ) : Outcome :=
  match tier2Sample E m rng with
  | Outcome.ok s => Outcome.ok (generate_mass_parameters E s)
  | Outcome.unrecognized msg => Outcome.unrecognized msg

/-- `Mass.sample()` (lines 40-174).  `tier1Ok` records whether the external
tier-1 machinery (gwpopulation import, model construction, density and prior
evaluation, lines 50-80) runs without raising; the bare `except:` of line 82
catches every exception, so any tier-1 failure — including the `NameError`
when no tier-1 branch matched — falls through to the tier-2 dispatch on the
same normalised name. -/
def sample (E : Ext) (m : Mass) (tier1Ok : Bool) (rng : ℕ → ℚ) : Outcome :=
  match tier1Tag m.mass_model with
  | some tag =>
    if tier1Ok then
      Outcome.ok (generate_mass_parameters E
        (tier1Sample E tag m.parameters m.number_of_samples rng))
    else tier2Outcome E m rng
  | none => tier2Outcome E m rng

/-- The mixture density the spec prescribes for the `doublegaussian` model,
stated in the spec's own orientation (`breaking_fraction` times the first
truncated Gaussian plus `1 - breaking_fraction` times the second), used to
compare the source's density construction against the claim. -/
def specMixtureDensity (E : Ext) (ps : List (String × ℚ)) : List ℚ :=
  (linspace (get ps "mmin") (get ps "mmax") 5001).map (fun x =>
    get ps "breaking_fraction" *
      E.tgProb (get ps "mu_1") (get ps "sigma_1") (get ps "mmin") (get ps "mmax") x +
    (1 - get ps "breaking_fraction") *
      E.tgProb (get ps "mu_2") (get ps "sigma_2") (get ps "mmin") (get ps "mmax") x)

/-- A concrete instantiation of the external dependencies, used for closed
evaluations: the power function returns its base, the truncated Gaussian
density is constantly `1`, the `Interped` inverse-CDF sampler returns the
first density value, and no derived fields are added. -/
def extDummy : Ext where
  pw := fun a _ => a
  tgProb := fun _ _ _ _ _ => 1
  interpICDF := fun _ yy _ => yy.headD 0
  uniformICDF := fun lo _ _ => lo
  logNormalICDF := fun mu _ _ => mu
  powerLawICDF := fun _ lo _ _ => lo
  m1s := fun _ => []
  qs := fun _ => []
  p_m1 := fun _ _ _ => []
  p_q := fun _ _ _ _ => []
  derived := fun _ => []

/-- A concrete uniform-draw stream for closed evaluations. -/
def rng0 : ℕ → ℚ := fun _ => 0

/-- Whether the normalised name contains at least one of the substrings some
dispatch branch of `sample` tests for; when this is false, both tiers fall
through and line 170 raises. -/
def matchesAny (name : String) : Bool :=
  strIn "powerlawpeak" name || (strIn "multipeak" name || (strIn "brokenpowerlaw" name ||
  (strIn "uniformsecondary" name || (strIn "doublegaussian" name || (strIn "lognormal" name ||
  (strIn "loggaussian" name || (strIn "dip" name || (strIn "powerlaw" name ||
  strIn "fixed" name))))))))

/-- Concrete parameter dict for closed evaluations of the `fixed` branch. -/
def ps30 : List (String × ℚ) := [("primary_mass", 30), ("mass_ratio", 2)]

/-- Concrete parameter dict for closed evaluations of the filters. -/
def psC4 : List (String × ℚ) :=
  [("A", 2), ("gamma_low", 10), ("eta_low", 1), ("gamma_high", 1000), ("eta_high", 1),
   ("mmax", 50), ("n", 4)]

/-- Concrete parameter dict with `gamma_high < mmax`, for closed evaluations
of the dip density. -/
def ps9 : List (String × ℚ) := [("gamma_high", 2), ("mmax", 3), ("mmin", 1), ("alpha_2", 5)]

/-- Concrete parameter dict for the uniform-secondary branch. -/
def psU : List (String × ℚ) := [("minimum_secondary_mass", 5), ("maximum_secondary_mass", 7)]

/-- A second concrete instantiation of the external dependencies whose
inverse-CDF sampler returns the uniform draw unchanged, ignoring the grid and
the density; used to separate dispatch behaviour from density construction in
closed evaluations. -/
def extFlat : Ext where
  pw := fun a _ => a
  tgProb := fun _ _ _ _ _ => 1
  interpICDF := fun _ _ u => u
  uniformICDF := fun lo _ _ => lo
  logNormalICDF := fun mu _ _ => mu
  powerLawICDF := fun _ lo _ _ => lo
  m1s := fun _ => []
  qs := fun _ => []
  p_m1 := fun _ _ _ => []
  p_q := fun _ _ _ _ => []
  derived := fun _ => []

theorem isPref_iff (a b : List Char) : isPref a b = true ↔ ∃ t, a ++ t = b := by
  induction a generalizing b with
  | nil =>
    simp [isPref]
  | cons x xs ih =>
    cases b with
    | nil =>
      simp [isPref]
    | cons y ys =>
      constructor
      · intro h
        rw [isPref] at h
        split at h
        · rename_i hxy
          obtain ⟨t, ht⟩ := (ih ys).mp h
          exact ⟨t, by rw [hxy, List.cons_append, ht]⟩
        · exact absurd h (by simp)
      · rintro ⟨t, ht⟩
        rw [List.cons_append] at ht
        injection ht with h1 h2
        rw [isPref, if_pos h1]
        exact (ih ys).mpr ⟨t, h2⟩

theorem listIn_iff (a b : List Char) : listIn a b = true ↔ ∃ s t, s ++ a ++ t = b := by
  induction b with
  | nil =>
    rw [listIn, isPref_iff]
    constructor
    · rintro ⟨t, ht⟩
      exact ⟨[], t, by simpa using ht⟩
    · rintro ⟨s, t, h⟩
      rw [List.append_eq_nil] at h
      rw [List.append_eq_nil] at h
      exact ⟨t, by simp [h.1.2, h.2]⟩
  | cons y ys ih =>
    rw [listIn, Bool.or_eq_true, isPref_iff, ih]
    constructor
    · rintro (⟨t, ht⟩ | ⟨s, t, h⟩)
      · exact ⟨[], t, by simpa using ht⟩
      · exact ⟨y :: s, t, by rw [List.cons_append, List.cons_append, h]⟩
    · rintro ⟨s, t, h⟩
      cases s with
      | nil =>
        exact Or.inl ⟨t, by simpa using h⟩
      | cons z zs =>
        rw [List.cons_append, List.cons_append] at h
        injection h with h1 h2
        exact Or.inr ⟨zs, t, by rw [← h2]⟩

theorem strIn_iff (a b : String) :
    strIn a b = true ↔ ∃ s t, s ++ a.toList ++ t = b.toList := listIn_iff _ _

theorem strIn_left (a b : String) : strIn a (a ++ b) = true := by
  rw [strIn_iff]
  exact ⟨[], b.toList, by simp [String.toList]⟩

theorem strIn_right {a c : String} (b : String) (h : strIn a c = true) :
    strIn a (b ++ c) = true := by
  rw [strIn_iff] at h ⊢
  obtain ⟨s, t, hst⟩ := h
  refine ⟨b.toList ++ s, t, ?_⟩
  have hbc : (b ++ c).toList = b.toList ++ c.toList := rfl
  rw [hbc, ← hst]
  simp [List.append_assoc]

theorem strIn_trans {a b c : String} (h1 : strIn a b = true) (h2 : strIn b c = true) :
    strIn a c = true := by
  rw [strIn_iff] at h1 h2 ⊢
  obtain ⟨s, t, hst⟩ := h1
  obtain ⟨u, v, huv⟩ := h2
  refine ⟨u ++ s, t ++ v, ?_⟩
  rw [← huv, ← hst]
  simp [List.append_assoc]

theorem sample_eq_tier2 (E : Ext) (m : Mass) (t1 : Bool) (rng : ℕ → ℚ)
    (h : tier1Tag m.mass_model = none ∨ t1 = false) :
    sample E m t1 rng = tier2Outcome E m rng := by
  rcases h with h | h
  · unfold sample
    rw [h]
  · subst h
    unfold sample
    cases tier1Tag m.mass_model <;> simp

theorem tier2Sample_unrecognized (E : Ext) (m : Mass) (rng : ℕ → ℚ)
    (h1 : strIn "uniformsecondary" m.mass_model = false)
    (h2 : strIn "doublegaussian" m.mass_model = false)
    (h3 : strIn "lognormal" m.mass_model = false)
    (h4 : strIn "loggaussian" m.mass_model = false)
    (h5 : strIn "dip" m.mass_model = false)
    (h6 : strIn "powerlaw" m.mass_model = false)
    (h7 : strIn "fixed" m.mass_model = false) :
    tier2Sample E m rng = Outcome.unrecognized (unrecognizedMsg m.mass_model) := by
  unfold tier2Sample
  rw [h1, h2, h3, h4, h5, h6, h7]
  simp

theorem tier2Sample_doublegaussian (E : Ext) (m : Mass) (rng : ℕ → ℚ)
    (h1 : strIn "uniformsecondary" m.mass_model = false)
    (h2 : strIn "doublegaussian" m.mass_model = true) :
    tier2Sample E m rng =
      Outcome.ok (doubleGaussianSamples E m.parameters m.number_of_samples rng) := by
  unfold tier2Sample
  rw [h1, h2]
  simp

theorem tier2Sample_dip (E : Ext) (m : Mass) (rng : ℕ → ℚ)
    (h1 : strIn "uniformsecondary" m.mass_model = false)
    (h2 : strIn "doublegaussian" m.mass_model = false)
    (h3 : strIn "lognormal" m.mass_model = false)
    (h4 : strIn "loggaussian" m.mass_model = false)
    (h5 : strIn "dip" m.mass_model = true) :
    tier2Sample E m rng = Outcome.ok (dipSamples E m.parameters m.number_of_samples rng) := by
  unfold tier2Sample
  rw [h1, h2, h3, h4, h5]
  simp

theorem tier2Sample_powerlaw (E : Ext) (m : Mass) (rng : ℕ → ℚ)
    (h1 : strIn "uniformsecondary" m.mass_model = false)
    (h2 : strIn "doublegaussian" m.mass_model = false)
    (h3 : strIn "lognormal" m.mass_model = false)
    (h4 : strIn "loggaussian" m.mass_model = false)
    (h5 : strIn "dip" m.mass_model = false)
    (h6 : strIn "powerlaw" m.mass_model = true) :
    tier2Sample E m rng =
      Outcome.ok (powerLawSamples E m.parameters m.number_of_samples rng) := by
  unfold tier2Sample
  rw [h1, h2, h3, h4, h5, h6]
  simp

theorem tier2Sample_fixed (E : Ext) (m : Mass) (rng : ℕ → ℚ)
    (h1 : strIn "uniformsecondary" m.mass_model = false)
    (h2 : strIn "doublegaussian" m.mass_model = false)
    (h3 : strIn "lognormal" m.mass_model = false)
    (h4 : strIn "loggaussian" m.mass_model = false)
    (h5 : strIn "dip" m.mass_model = false)
    (h6 : strIn "powerlaw" m.mass_model = false)
    (h7 : strIn "fixed" m.mass_model = true) :
    tier2Sample E m rng =
      Outcome.ok (fixedSamples m.parameters m.number_of_samples) := by
  unfold tier2Sample
  rw [h1, h2, h3, h4, h5, h6, h7]
  simp

theorem sampleN_length (draw : ℚ → ℚ) (rng : ℕ → ℚ) (off n : ℕ) :
    (sampleN draw rng off n).length = n := by
  simp [sampleN]

theorem linspace_length (a b : ℚ) (num : ℕ) : (linspace a b num).length = num := by
  rw [linspace, List.length_map, List.length_range]

theorem zipWith_add_map (f g : ℚ → ℚ) (l : List ℚ) :
    List.zipWith (fun a b => a + b) (l.map f) (l.map g) = l.map (fun x => f x + g x) := by
  induction l with
  | nil => rfl
  | cons x xs ih => simp [ih]

theorem lookup_generate_of_some (E : Ext) (s0 : List (String × List ℚ)) (k : String)
    (l : List ℚ) (h : s0.lookup k = some l) :
    (generate_mass_parameters E s0).lookup k = some l := by
  rw [generate_mass_parameters, List.lookup_append, h]
  rfl

theorem tier2Sample_shape (E : Ext) (m : Mass) (rng : ℕ → ℚ) :
    tier2Sample E m rng = Outcome.unrecognized (unrecognizedMsg m.mass_model)
    ∨ ∃ l1 l2, tier2Sample E m rng
          = Outcome.ok [("mass_1_source", l1), ("mass_2_source", l2)]
        ∧ l1.length = m.number_of_samples ∧ l2.length = m.number_of_samples := by
  rw [tier2Sample]
  split
  · exact Or.inr ⟨_, _, rfl, sampleN_length _ _ _ _, sampleN_length _ _ _ _⟩
  split
  · exact Or.inr ⟨_, _, rfl, sampleN_length _ _ _ _, sampleN_length _ _ _ _⟩
  split
  · exact Or.inr ⟨_, _, rfl, sampleN_length _ _ _ _, sampleN_length _ _ _ _⟩
  split
  · exact Or.inr ⟨_, _, rfl, sampleN_length _ _ _ _, sampleN_length _ _ _ _⟩
  split
  · exact Or.inr ⟨_, _, rfl, sampleN_length _ _ _ _, sampleN_length _ _ _ _⟩
  split
  · exact Or.inr ⟨_, _, rfl, by simp [List.length_map, List.length_replicate],
      by simp [List.length_map, List.length_replicate]⟩
  · exact Or.inl rfl

/-- Claim C1 (corrected): for every model name whose normalised form contains
none of the dispatch substrings, `sample()` raises the `ValueError` of line
170, whose message contains the offending name and every entry of the
module's `choices` list — which enumerates PowerLaw+Peak, MultiPeak,
BrokenPowerLaw, UniformSecondary, DoubleGaussian, LogNormal,
PowerLawDipBreak and PowerLaw, but (contrary to the claim) no `Fixed`
entry. -/
theorem unrecognized_model_error_message (E : Ext) (m : Mass) (t1 : Bool) (rng : ℕ → ℚ)
    (h : matchesAny m.mass_model = false) :
    sample E m t1 rng = Outcome.unrecognized (unrecognizedMsg m.mass_model)
    ∧ strIn m.mass_model (unrecognizedMsg m.mass_model) = true
    ∧ ∀ c ∈ choices, strIn c (unrecognizedMsg m.mass_model) = true := by
  rw [matchesAny] at h
  simp only [Bool.or_eq_false_iff] at h
  obtain ⟨hp, hm, hb, hu, hd, hl, hg, hdip, hpl, hf⟩ := h
  have htag : tier1Tag m.mass_model = none := by
    rw [tier1Tag, hp, hm, hb]
    simp
  refine ⟨?_, ?_, ?_⟩
  · rw [sample_eq_tier2 E m t1 rng (Or.inl htag), tier2Outcome,
      tier2Sample_unrecognized E m rng hu hd hl hg hdip hpl hf]
  · rw [unrecognizedMsg]
    exact strIn_left _ _
  · intro c hc
    rw [unrecognizedMsg]
    fin_cases hc <;> exact strIn_right _ (by decide)

/-- Claim C1, witness: the concrete unmatched normalised name `notamodel`
triggers the hard error and the message contains the name. -/
theorem unrecognized_model_error_message_witness :
    matchesAny "notamodel" = false
    ∧ sample extDummy ⟨"notamodel", 3, []⟩ true rng0
        = Outcome.unrecognized (unrecognizedMsg "notamodel")
    ∧ strIn "notamodel" (unrecognizedMsg "notamodel") = true := by
  have h : matchesAny "notamodel" = false := by decide
  have happ := unrecognized_model_error_message extDummy ⟨"notamodel", 3, []⟩ true rng0 h
  exact ⟨h, happ.1, happ.2.1⟩

/-- Claim C1, counterexample to the claim as stated: the error message for the
unmatched name `notamodel` does not contain the string `Fixed`, although the
claim's enumerated choice set includes it — the module's `choices` list
(lines 17-18) has no `Fixed` entry. -/
theorem unrecognized_model_message_no_fixed_entry :
    sample extDummy ⟨"notamodel", 3, []⟩ true rng0
      = Outcome.unrecognized (unrecognizedMsg "notamodel")
    ∧ strIn "Fixed" (unrecognizedMsg "notamodel") = false := by
  exact ⟨by decide, by decide⟩

/-- Claim C2 (code bug): line 63 filters with `param not in ('beta')`, where
`('beta')` is the string `'beta'`, not a one-element tuple, so the test is
substring containment: the key `eta`, although different from `beta`, is
dropped from the mass-shape parameter dict (the claim, and the genuine tuples
on the adjacent lines 64 and 88, say only the exact key `beta` is excluded —
under that reading the dict would keep the `eta` entry, as the third conjunct
shows).  The mass-ratio-shape half of the claim matches the code (fourth
conjunct). -/
theorem mass_parameters_drops_substring_keys :
    mass_parameters [("eta", (1 : ℚ))] = []
    ∧ ("eta" : String) ≠ "beta"
    ∧ [("eta", (1 : ℚ))].filter (fun kv => !(kv.1 == "beta")) = [("eta", (1 : ℚ))]
    ∧ mass_ratio_parameters [("beta", (1 : ℚ)), ("mmin", 2), ("delta_m", 3), ("alpha", 4)]
        = [("beta", (1 : ℚ)), ("mmin", 2), ("delta_m", 3)] := by
  exact ⟨by decide, by decide, by decide, by decide⟩

/-- Claim C3: for the `fixed` model with sample count `n`, `sample()` sets
`mass_1_source` to the constant `primary_mass` repeated `n` times, and every
entry of `mass_2_source` to `primary_mass * mass_ratio` when the ratio does
not exceed 1 and to `primary_mass / mass_ratio` when it does (at
`mass_ratio = 1` the code's strict `< 1` test takes the reciprocal branch,
which yields the same value); in particular `primary_mass = 30` gives
`mass_2_source = 15` both for `mass_ratio = 1/2` and for `mass_ratio = 2`. -/
theorem fixed_model_samples (E : Ext) (ps : List (String × ℚ)) (n : ℕ) (t1 : Bool)
    (rng : ℕ → ℚ) :
    ∃ s, sample E ⟨"fixed", n, ps⟩ t1 rng = Outcome.ok s
      ∧ s.lookup "mass_1_source" = some (List.replicate n (get ps "primary_mass"))
      ∧ s.lookup "mass_2_source" = some (List.replicate n (get ps "primary_mass" *
          (if get ps "mass_ratio" ≤ 1 then get ps "mass_ratio" else 1 / get ps "mass_ratio")))
      ∧ (get ps "primary_mass" = 30 →
          (get ps "mass_ratio" = 1/2 ∨ get ps "mass_ratio" = 2) →
          s.lookup "mass_2_source" = some (List.replicate n 15)) := by
  have e0 : tier1Tag "fixed" = none := by decide
  have e1 : strIn "uniformsecondary" "fixed" = false := by decide
  have e2 : strIn "doublegaussian" "fixed" = false := by decide
  have e3 : strIn "lognormal" "fixed" = false := by decide
  have e4 : strIn "loggaussian" "fixed" = false := by decide
  have e5 : strIn "dip" "fixed" = false := by decide
  have e6 : strIn "powerlaw" "fixed" = false := by decide
  have e7 : strIn "fixed" "fixed" = true := by decide
  have hb1 : ("mass_2_source" == "mass_1_source") = false := by decide
  have hs : sample E ⟨"fixed", n, ps⟩ t1 rng
      = Outcome.ok (generate_mass_parameters E (fixedSamples ps n)) := by
    rw [sample_eq_tier2 E ⟨"fixed", n, ps⟩ t1 rng (Or.inl e0)]
    rw [tier2Outcome, tier2Sample_fixed E ⟨"fixed", n, ps⟩ rng e1 e2 e3 e4 e5 e6 e7]
  have hm2 : (generate_mass_parameters E (fixedSamples ps n)).lookup "mass_2_source"
      = some (List.replicate n (get ps "primary_mass" *
          (if get ps "mass_ratio" ≤ 1 then get ps "mass_ratio" else 1 / get ps "mass_ratio"))) := by
    simp only [generate_mass_parameters, fixedSamples, List.cons_append, List.lookup, hb1,
      beq_self_eq_true, List.map_replicate, one_mul]
    rcases lt_trichotomy (get ps "mass_ratio") 1 with h | h | h
    · rw [if_pos h, if_pos (le_of_lt h)]
    · rw [h]
      norm_num
    · rw [if_neg (not_lt.mpr (le_of_lt h)), if_neg (not_le.mpr h)]
  refine ⟨_, hs, ?_, hm2, ?_⟩
  · simp [generate_mass_parameters, fixedSamples, List.lookup, List.map_replicate]
  · intro h30 hq
    rw [hm2, h30]
    rcases hq with hq | hq <;> rw [hq] <;> norm_num

/-- Claim C3, witness: `primary_mass = 30`, `mass_ratio = 2` (the reciprocal
branch) yields `mass_2_source = 15` for both samples. -/
theorem fixed_model_samples_witness :
    get ps30 "primary_mass" = 30 ∧ get ps30 "mass_ratio" = 2
    ∧ ∃ s, sample extDummy ⟨"fixed", 2, ps30⟩ false rng0 = Outcome.ok s
        ∧ s.lookup "mass_2_source" = some (List.replicate 2 15) := by
  refine ⟨rfl, rfl, ?_⟩
  obtain ⟨s, hs, _, _, h3⟩ := fixed_model_samples extDummy ps30 2 false rng0
  exact ⟨s, hs, h3 rfl (Or.inr rfl)⟩

/-- Claim C4: the notch filter and the low-pass filter are pure element-wise
functions computing, for every value `v` and every parameter dict binding
`A`, `gamma_low`, `eta_low`, `gamma_high`, `eta_high`, `mmax` and `n`, the
closed forms
`notch(v) = 1 - A / ((1 + (gamma_low/v)^eta_low) * (1 + (v/gamma_high)^eta_high))`
and `lowpass(v) = 1 / (1 + (v/mmax)^n)` (`^` is the external floating-point
power `E.pw`). -/
theorem filters_pointwise_formulas (E : Ext) (v : ℚ) (ps : List (String × ℚ))
    (A gl el gh eh mm nn : ℚ)
    (hA : ps.lookup "A" = some A) (hgl : ps.lookup "gamma_low" = some gl)
    (hel : ps.lookup "eta_low" = some el) (hgh : ps.lookup "gamma_high" = some gh)
    (heh : ps.lookup "eta_high" = some eh) (hmm : ps.lookup "mmax" = some mm)
    (hn : ps.lookup "n" = some nn) :
    notch_filter E v ps = 1 - A / ((1 + E.pw (gl / v) el) * (1 + E.pw (v / gh) eh))
    ∧ low_pass_filter E v ps = 1 / (1 + E.pw (v / mm) nn) := by
  unfold notch_filter low_pass_filter get
  rw [hA, hgl, hel, hgh, heh, hmm, hn]
  exact ⟨rfl, rfl⟩

/-- Claim C4, witness: the filter formulas evaluated at `v = 3` on a concrete
parameter dict. -/
theorem filters_pointwise_formulas_witness :
    psC4.lookup "A" = some 2
    ∧ notch_filter extDummy 3 psC4
        = 1 - 2 / ((1 + extDummy.pw ((10 : ℚ) / 3) 1) * (1 + extDummy.pw ((3 : ℚ) / 1000) 1))
    ∧ low_pass_filter extDummy 3 psC4 = 1 / (1 + extDummy.pw ((3 : ℚ) / 50) 4) := by
  have h := filters_pointwise_formulas extDummy 3 psC4 2 10 1 1000 1 50 4
    rfl rfl rfl rfl rfl rfl rfl
  exact ⟨rfl, h.1, h.2⟩

/-- Claim C7: whenever tier-1 either does not match the normalised name or its
external machinery raises (any failure is caught by the bare `except:` of
line 82), `sample()` does not propagate the failure but computes the tier-2
dispatch on the same normalised name; and an unrecognized-model error can
only come out of the tier-2 dispatch. -/
theorem tier1_failure_falls_through (E : Ext) (m : Mass) (t1 : Bool) (rng : ℕ → ℚ) :
    ((tier1Tag m.mass_model = none ∨ t1 = false) → sample E m t1 rng = tier2Outcome E m rng)
    ∧ (∀ msg, sample E m t1 rng = Outcome.unrecognized msg →
        tier2Sample E m rng = Outcome.unrecognized msg) := by
  constructor
  · exact sample_eq_tier2 E m t1 rng
  · intro msg hmsg
    have h2 : tier2Outcome E m rng = Outcome.unrecognized msg →
        tier2Sample E m rng = Outcome.unrecognized msg := by
      intro ht
      rw [tier2Outcome] at ht
      cases h2 : tier2Sample E m rng with
      | ok s =>
        rw [h2] at ht
        exact absurd ht (by simp)
      | unrecognized msg2 =>
        rw [h2] at ht
        simpa using ht
    cases htag : tier1Tag m.mass_model with
    | none =>
      rw [sample_eq_tier2 E m t1 rng (Or.inl htag)] at hmsg
      exact h2 hmsg
    | some tag =>
      cases t1 with
      | false =>
        rw [sample_eq_tier2 E m false rng (Or.inr rfl)] at hmsg
        exact h2 hmsg
      | true =>
        rw [sample] at hmsg
        rw [htag] at hmsg
        exact absurd hmsg (by simp)

/-- Claim C7, witness: with tier-1 failing (external machinery raising) on the
name `notamodel`, `sample()` equals the tier-2 dispatch outcome. -/
theorem tier1_failure_falls_through_witness :
    (tier1Tag "notamodel" = none ∨ (false : Bool) = false)
    ∧ sample extDummy ⟨"notamodel", 1, []⟩ false rng0
        = tier2Outcome extDummy ⟨"notamodel", 1, []⟩ rng0 := by
  refine ⟨Or.inr rfl, ?_⟩
  exact (tier1_failure_falls_through extDummy ⟨"notamodel", 1, []⟩ false rng0).1 (Or.inr rfl)

/-- Claim C5: for the `doublegaussian` model, the density handed to the
inverse-CDF sampler is built on the 5001-point linear grid from `mmin` to
`mmax` and equals, pointwise at every grid value, `breaking_fraction` times
the truncated-Gaussian density with mean `mu_1` and width `sigma_1` plus
`1 - breaking_fraction` times the one with mean `mu_2` and width `sigma_2`
(both truncated to `[mmin, mmax]`); `mass_1_source` and `mass_2_source` are
two draws through this single mixture sampler from disjoint segments of the
uniform stream. -/
theorem doublegaussian_mixture_sampling (E : Ext) (ps : List (String × ℚ)) (n : ℕ)
    (t1 : Bool) (rng : ℕ → ℚ) :
    sample E ⟨"doublegaussian", n, ps⟩ t1 rng
      = Outcome.ok (generate_mass_parameters E (doubleGaussianSamples E ps n rng))
    ∧ (linspace (get ps "mmin") (get ps "mmax") 5001).length = 5001
    ∧ doubleGaussianSamples E ps n rng =
        [("mass_1_source",
           sampleN (E.interpICDF (linspace (get ps "mmin") (get ps "mmax") 5001)
             (specMixtureDensity E ps)) rng 0 n),
         ("mass_2_source",
           sampleN (E.interpICDF (linspace (get ps "mmin") (get ps "mmax") 5001)
             (specMixtureDensity E ps)) rng n n)] := by
  have e0 : tier1Tag "doublegaussian" = none := by decide
  have e1 : strIn "uniformsecondary" "doublegaussian" = false := by decide
  have e2 : strIn "doublegaussian" "doublegaussian" = true := by decide
  refine ⟨?_, linspace_length _ _ _, ?_⟩
  · rw [sample_eq_tier2 E ⟨"doublegaussian", n, ps⟩ t1 rng (Or.inl e0), tier2Outcome,
      tier2Sample_doublegaussian E ⟨"doublegaussian", n, ps⟩ rng e1 e2]
  · have hfun : (fun x =>
        E.tgProb (get ps "mu_1") (get ps "sigma_1") (get ps "mmin") (get ps "mmax") x *
          get ps "breaking_fraction" +
        E.tgProb (get ps "mu_2") (get ps "sigma_2") (get ps "mmin") (get ps "mmax") x *
          (1 - get ps "breaking_fraction"))
        = (fun x =>
        get ps "breaking_fraction" *
          E.tgProb (get ps "mu_1") (get ps "sigma_1") (get ps "mmin") (get ps "mmax") x +
        (1 - get ps "breaking_fraction") *
          E.tgProb (get ps "mu_2") (get ps "sigma_2") (get ps "mmin") (get ps "mmax") x) :=
      funext (fun x => by ring)
    simp only [doubleGaussianSamples, specMixtureDensity, zipWith_add_map, hfun]

/-- Claim C6 (amended): a model name containing `dip` that actually reaches
the dip branch — tier-1 not taken, and none of the earlier tier-2 substrings
`uniformsecondary`, `doublegaussian`, `lognormal`, `loggaussian` present —
yields the combined density on the 5001-point grid from `mmin` to `mmax`,
equal below `gamma_high` to the power law with exponent `alpha_1` (bounded
`mmin..gamma_high`) times the notch and low-pass filters, and above
`gamma_high` to the power law with exponent `alpha_2` (same bounds) times the
same filters; one sampler is built from the combined grid and both mass
fields are drawn from it on disjoint segments of the uniform stream. -/
theorem dip_branch_density (E : Ext) (ps : List (String × ℚ)) (n : ℕ) (t1 : Bool)
    (rng : ℕ → ℚ) (name : String)
    (h1 : tier1Tag name = none ∨ t1 = false)
    (h2 : strIn "uniformsecondary" name = false)
    (h3 : strIn "doublegaussian" name = false)
    (h4 : strIn "lognormal" name = false)
    (h5 : strIn "loggaussian" name = false)
    (h6 : strIn "dip" name = true) :
    sample E ⟨name, n, ps⟩ t1 rng
      = Outcome.ok (generate_mass_parameters E (dipSamples E ps n rng))
    ∧ (linspace (get ps "mmin") (get ps "mmax") 5001).length = 5001
    ∧ (∀ x, x ≤ get ps "gamma_high" → dipProbFun E ps x
        = powerLawProb E (get ps "alpha_1") (get ps "mmin") (get ps "gamma_high") x *
            notch_filter E x ps * low_pass_filter E x ps)
    ∧ (∀ x, get ps "gamma_high" < x → dipProbFun E ps x
        = powerLawProb E (get ps "alpha_2") (get ps "mmin") (get ps "gamma_high") x *
            notch_filter E x ps * low_pass_filter E x ps)
    ∧ dipSamples E ps n rng =
        [("mass_1_source",
           sampleN (E.interpICDF (linspace (get ps "mmin") (get ps "mmax") 5001)
             ((linspace (get ps "mmin") (get ps "mmax") 5001).map (dipProbFun E ps)))
             rng 0 n),
         ("mass_2_source",
           sampleN (E.interpICDF (linspace (get ps "mmin") (get ps "mmax") 5001)
             ((linspace (get ps "mmin") (get ps "mmax") 5001).map (dipProbFun E ps)))
             rng n n)] := by
  refine ⟨?_, linspace_length _ _ _, ?_, ?_, ?_⟩
  · rw [sample_eq_tier2 E ⟨name, n, ps⟩ t1 rng h1, tier2Outcome,
      tier2Sample_dip E ⟨name, n, ps⟩ rng h2 h3 h4 h5 h6]
  · intro x hx
    rw [dipProbFun, if_pos hx]
  · intro x hx
    rw [dipProbFun, if_neg (not_le.mpr hx)]
  · simp only [dipSamples]

/-- Claim C6, witness: the canonical normalised name `powerlawdipbreak`
reaches the dip branch. -/
theorem dip_branch_density_witness :
    tier1Tag "powerlawdipbreak" = none ∧ strIn "dip" "powerlawdipbreak" = true
    ∧ sample extDummy ⟨"powerlawdipbreak", 1, ps9⟩ true rng0
        = Outcome.ok (generate_mass_parameters extDummy (dipSamples extDummy ps9 1 rng0)) := by
  have h0 : tier1Tag "powerlawdipbreak" = none := by decide
  have h6 : strIn "dip" "powerlawdipbreak" = true := by decide
  exact ⟨h0, h6, (dip_branch_density extDummy ps9 1 true rng0 "powerlawdipbreak" (Or.inl h0)
    (by decide) (by decide) (by decide) (by decide) h6).1⟩

/-- Claim C6, counterexample to the claim as stated: the name
`uniformsecondarydip` contains `dip`, but tier-2 dispatch tests
`uniformsecondary` first, so `sample()` draws from the uniform-secondary
construction, not from the dip density (with the flat inverse-CDF sampler the
two give different outputs: the uniform secondary mass is the dict's
`minimum_secondary_mass`, the dip draw the uniform value `0`). -/
theorem dip_name_not_dip_branch :
    strIn "dip" "uniformsecondarydip" = true
    ∧ sample extFlat ⟨"uniformsecondarydip", 1, psU⟩ false rng0
        ≠ Outcome.ok (generate_mass_parameters extFlat (dipSamples extFlat psU 1 rng0)) := by
  exact ⟨by decide, by decide⟩

/-- Claim C8: whenever `sample()` returns a mapping, that mapping binds
`mass_1_source` and either `mass_2_source` or `mass_ratio`, and each of these
sequences has length exactly the sample count fixed at construction — for
every model name, every tier-1 success value and every uniform stream. -/
theorem sample_field_lengths (E : Ext) (m : Mass) (t1 : Bool) (rng : ℕ → ℚ)
    (s : List (String × List ℚ)) (h : sample E m t1 rng = Outcome.ok s) :
    (∃ l, s.lookup "mass_1_source" = some l ∧ l.length = m.number_of_samples)
    ∧ (∃ l, (s.lookup "mass_2_source" = some l ∨ s.lookup "mass_ratio" = some l)
        ∧ l.length = m.number_of_samples) := by
  have htier2 : tier2Outcome E m rng = Outcome.ok s →
      (∃ l, s.lookup "mass_1_source" = some l ∧ l.length = m.number_of_samples)
      ∧ (∃ l, (s.lookup "mass_2_source" = some l ∨ s.lookup "mass_ratio" = some l)
          ∧ l.length = m.number_of_samples) := by
    intro ht
    rw [tier2Outcome] at ht
    rcases tier2Sample_shape E m rng with hsh | ⟨l1, l2, hsh, hl1, hl2⟩ <;> rw [hsh] at ht
    · exact absurd ht (by simp)
    · have hs : s = generate_mass_parameters E [("mass_1_source", l1), ("mass_2_source", l2)] := by
        have hok := ht
        simp only [Outcome.ok.injEq] at hok
        exact hok.symm
      subst hs
      exact ⟨⟨l1, lookup_generate_of_some E _ _ _ rfl, hl1⟩,
        ⟨l2, Or.inl (lookup_generate_of_some E _ _ _ rfl), hl2⟩⟩
  cases htag : tier1Tag m.mass_model with
  | none =>
    rw [sample_eq_tier2 E m t1 rng (Or.inl htag)] at h
    exact htier2 h
  | some tag =>
    cases t1 with
    | false =>
      rw [sample_eq_tier2 E m false rng (Or.inr rfl)] at h
      exact htier2 h
    | true =>
      rw [sample, htag] at h
      simp only [if_true, Outcome.ok.injEq] at h
      subst h
      exact ⟨⟨_, lookup_generate_of_some E _ _ _ rfl, sampleN_length _ _ _ _⟩,
        ⟨_, Or.inr (lookup_generate_of_some E _ _ _ rfl), sampleN_length _ _ _ _⟩⟩

/-- Claim C8, witness: the `lognormal` model at sample count 2 returns both
mass fields with length 2. -/
theorem sample_field_lengths_witness :
    sample extDummy ⟨"lognormal", 2, [("mu", 3), ("sigma", 1)]⟩ false rng0
      = Outcome.ok [("mass_1_source", [3, 3]), ("mass_2_source", [3, 3])]
    ∧ (∃ l, ([("mass_1_source", [(3 : ℚ), 3]), ("mass_2_source", [3, 3])].lookup "mass_1_source"
          = some l ∧ l.length = 2))
    ∧ (∃ l, ([("mass_1_source", [(3 : ℚ), 3]), ("mass_2_source", [3, 3])].lookup "mass_2_source"
            = some l
          ∨ [("mass_1_source", [(3 : ℚ), 3]), ("mass_2_source", [3, 3])].lookup "mass_ratio"
            = some l)
        ∧ l.length = 2) := by
  have h : sample extDummy ⟨"lognormal", 2, [("mu", 3), ("sigma", 1)]⟩ false rng0
      = Outcome.ok [("mass_1_source", [3, 3]), ("mass_2_source", [3, 3])] := by decide
  have happ := sample_field_lengths extDummy ⟨"lognormal", 2, [("mu", 3), ("sigma", 1)]⟩
    false rng0 [("mass_1_source", [3, 3]), ("mass_2_source", [3, 3])] h
  exact ⟨h, happ.1, happ.2⟩

/-- Claim C9: in the dip branch the upper-segment power law is constructed
with maximum `gamma_high` but only evaluated at points strictly above
`gamma_high`, where a bounded power-law density is zero; hence for every
parameter dict with `gamma_high < mmax` the combined density vanishes at
every grid point above `gamma_high` (and `mmax` itself is such a grid point,
so the sampler's support is effectively confined to masses at most
`gamma_high`). -/
theorem dip_density_zero_above_gamma_high (E : Ext) (ps : List (String × ℚ))
    (h : get ps "gamma_high" < get ps "mmax") :
    (∀ x, get ps "gamma_high" < x →
        powerLawProb E (get ps "alpha_2") (get ps "mmin") (get ps "gamma_high") x = 0)
    ∧ (∀ x ∈ linspace (get ps "mmin") (get ps "mmax") 5001,
        get ps "gamma_high" < x → dipProbFun E ps x = 0)
    ∧ get ps "mmax" ∈ linspace (get ps "mmin") (get ps "mmax") 5001 := by
  have hpl : ∀ x, get ps "gamma_high" < x →
      powerLawProb E (get ps "alpha_2") (get ps "mmin") (get ps "gamma_high") x = 0 := by
    intro x hx
    rw [powerLawProb, if_neg]
    rintro ⟨-, hle⟩
    exact absurd hx (not_lt.mpr hle)
  refine ⟨hpl, ?_, ?_⟩
  · intro x _ hx
    rw [dipProbFun, if_neg (not_le.mpr hx), hpl x hx, zero_mul, zero_mul]
  · rw [linspace]
    refine List.mem_map.mpr ⟨5000, List.mem_range.mpr (by norm_num), ?_⟩
    norm_num

/-- Claim C9, witness: with `gamma_high = 2 < mmax = 3`, the upper-segment
power-law density is zero at the grid point `3`. -/
theorem dip_density_zero_above_gamma_high_witness :
    get ps9 "gamma_high" < get ps9 "mmax"
    ∧ powerLawProb extDummy (get ps9 "alpha_2") (get ps9 "mmin") (get ps9 "gamma_high") 3
        = 0 := by
  have h : get ps9 "gamma_high" < get ps9 "mmax" := by
    show (2 : ℚ) < 3
    norm_num
  exact ⟨h, (dip_density_zero_above_gamma_high extDummy ps9 h).1 3
    (by show (2 : ℚ) < 3; norm_num)⟩

/-- Claim C10 (amended): with tier-1 raising, a name containing
`powerlawpeak` or `brokenpowerlaw` — both of which contain `powerlaw` — and
none of the earlier tier-2 substrings falls through to the plain power-law
branch, drawing both masses from the power-law sampler with exponent `alpha`
on `[mmin, mmax]`; but a name containing `multipeak` and no tier-2 substring
does reach the unrecognized-model error (contrary to the claim as stated). -/
theorem powerlaw_substring_fallback (E : Ext) (ps : List (String × ℚ)) (n : ℕ)
    (rng : ℕ → ℚ) (name : String) :
    ((strIn "powerlawpeak" name = true ∨ strIn "brokenpowerlaw" name = true) →
      strIn "uniformsecondary" name = false → strIn "doublegaussian" name = false →
      strIn "lognormal" name = false → strIn "loggaussian" name = false →
      strIn "dip" name = false →
      strIn "powerlaw" name = true
      ∧ sample E ⟨name, n, ps⟩ false rng
          = Outcome.ok (generate_mass_parameters E (powerLawSamples E ps n rng)))
    ∧ (strIn "multipeak" name = true →
      strIn "uniformsecondary" name = false → strIn "doublegaussian" name = false →
      strIn "lognormal" name = false → strIn "loggaussian" name = false →
      strIn "dip" name = false → strIn "powerlaw" name = false →
      strIn "fixed" name = false →
      sample E ⟨name, n, ps⟩ false rng = Outcome.unrecognized (unrecognizedMsg name)) := by
  constructor
  · intro hp h2 h3 h4 h5 h6
    have hpow : strIn "powerlaw" name = true := by
      rcases hp with hp | hp
      · exact strIn_trans (by decide) hp
      · exact strIn_trans (by decide) hp
    refine ⟨hpow, ?_⟩
    rw [sample_eq_tier2 E ⟨name, n, ps⟩ false rng (Or.inr rfl), tier2Outcome,
      tier2Sample_powerlaw E ⟨name, n, ps⟩ rng h2 h3 h4 h5 h6 hpow]
  · intro _ h2 h3 h4 h5 h6 h7 h8
    rw [sample_eq_tier2 E ⟨name, n, ps⟩ false rng (Or.inr rfl), tier2Outcome,
      tier2Sample_unrecognized E ⟨name, n, ps⟩ rng h2 h3 h4 h5 h6 h7 h8]

/-- Claim C10, witness: the name `powerlawpeak` with tier-1 raising lands in
the plain power-law branch. -/
theorem powerlaw_substring_fallback_witness :
    strIn "powerlawpeak" "powerlawpeak" = true
    ∧ strIn "powerlaw" "powerlawpeak" = true
    ∧ sample extDummy ⟨"powerlawpeak", 1, ps9⟩ false rng0
        = Outcome.ok (generate_mass_parameters extDummy (powerLawSamples extDummy ps9 1 rng0)) := by
  have hp : strIn "powerlawpeak" "powerlawpeak" = true := by decide
  have h := (powerlaw_substring_fallback extDummy ps9 1 rng0 "powerlawpeak").1 (Or.inl hp)
    (by decide) (by decide) (by decide) (by decide) (by decide)
  exact ⟨hp, h.1, h.2⟩

/-- Claim C10, counterexample to the claim as stated: the name `multipeak`
contains `multipeak`, tier-1 raises, and `sample()` does reach the
unrecognized-model error — `multipeak` contains no tier-2 dispatch
substring. -/
theorem multipeak_reaches_unrecognized_error :
    strIn "multipeak" "multipeak" = true
    ∧ sample extDummy ⟨"multipeak", 1, []⟩ false rng0
        = Outcome.unrecognized (unrecognizedMsg "multipeak") := by
  exact ⟨by decide, by decide⟩

end GWForge
